import Mathlib

/-!
Verification of the clayPlotter choropleth rendering engine
(`src/clayPlotter/plotter.py`) against its natural-language specification.

The embedding below translates the data-preparation and plotting logic of
`plotter.py` into Lean. Pandas dataframes become lists of records, Python
dict and YAML config values become structures, and the subset of shapely
geometry the plotter uses (axis-aligned bounds, rectangle clipping,
representative points, centroids, containment) is modelled over geometries
that are finite unions of axis-aligned rational boxes.  Shapely's
`contains` tests strict interior membership (a boundary point is not
contained), which is exactly the situation the plotter's
representative-point/centroid fallbacks guard against, so containment is
modelled strictly while plain membership is non-strict.
-/

namespace ClayPlotter

/-- A 2-D point with rational coordinates. -/
structure Point where
  x : ℚ
  y : ℚ
deriving DecidableEq, Repr

/-- An axis-aligned box, in the order shapely's `geometry.bounds` returns:
`(minx, miny, maxx, maxy)`. -/
structure Box where
  minx : ℚ
  miny : ℚ
  maxx : ℚ
  maxy : ℚ
deriving DecidableEq, Repr

/-- A geometry is a finite union of axis-aligned boxes (the shallow model of
the shapely geometries the plotter manipulates). -/
abbrev Geometry := List Box

/-- A box is well formed when its min corner is below its max corner. -/
def Box.wf (b : Box) : Prop := b.minx ≤ b.maxx ∧ b.miny ≤ b.maxy

instance (b : Box) : Decidable b.wf := by
  unfold Box.wf
  infer_instance

/-- Non-strict membership of a point in a box (shapely `within`/`intersects`
style membership, boundary included). -/
def withinB (b : Box) (p : Point) : Bool :=
  decide (b.minx ≤ p.x) && decide (p.x ≤ b.maxx) &&
  decide (b.miny ≤ p.y) && decide (p.y ≤ b.maxy)

/-- Strict interior membership of a point in a box.  Models shapely
`contains`, which excludes the boundary. -/
def strictWithinB (b : Box) (p : Point) : Bool :=
  decide (b.minx < p.x) && decide (p.x < b.maxx) &&
  decide (b.miny < p.y) && decide (p.y < b.maxy)

/-- A point belongs to a geometry iff it belongs to one of its boxes. -/
def memB (g : Geometry) (p : Point) : Bool := g.any (fun b => withinB b p)

/-- Shapely `geometry.contains(point)` on the box model: the point is in the
interior of one of the boxes. -/
def containsB (g : Geometry) (p : Point) : Bool := g.any (fun b => strictWithinB b p)

/-- Center of a box. -/
def Box.center (b : Box) : Point := ⟨(b.minx + b.maxx) / 2, (b.miny + b.maxy) / 2⟩

/-- Shapely `geometry.representative_point()` on the box model: the center of
the first box, a point of the geometry whenever the geometry is nonempty and
well formed. -/
def repPoint : Geometry → Point
  | [] => ⟨0, 0⟩
  | b :: _ => b.center

/-- Shapely `geometry.bounds` on the box model: the tight bounding box of the
union. -/
def boundsG : Geometry → Box
  | [] => ⟨0, 0, 0, 0⟩
  | b :: rest =>
    rest.foldl
      (fun acc c => ⟨min acc.minx c.minx, min acc.miny c.miny,
                     max acc.maxx c.maxx, max acc.maxy c.maxy⟩) b

/-- Shapely `geometry.centroid` on the box model, taken as the center of the
bounding box (exact for the single-box geometries the proofs instantiate). -/
def centroidPt (g : Geometry) : Point := (boundsG g).center

/-- Intersection of two boxes: `none` when they do not meet. -/
def interBox (b r : Box) : Option Box :=
  let nb : Box := ⟨max b.minx r.minx, max b.miny r.miny,
                   min b.maxx r.maxx, min b.maxy r.maxy⟩
  if nb.minx ≤ nb.maxx ∧ nb.miny ≤ nb.maxy then some nb else none

/-- Shapely `geometry.intersection(rect)` on the box model: clip every box of
the union to the rectangle, dropping the boxes that miss it. -/
def interG (g : Geometry) (r : Box) : Geometry := g.filterMap (fun b => interBox b r)

/-- The clipping rectangle that `_get_clipped_representative_point`
(plotter.py lines 264-275) builds from the geometry's bounds for a given
`clip_side` and `clip_percentage`; `none` models the invalid-side branch of
the `elif` chain (lines 276-278). -/
def clipRect (b : Box) (side : String) (f : ℚ) : Option Box :=
  let width := b.maxx - b.minx
  let height := b.maxy - b.miny
  if side = "top" then
    some ⟨b.minx, b.maxy - height * f, b.maxx, b.maxy⟩
  else if side = "bottom" then
    some ⟨b.minx, b.miny, b.maxx, b.miny + height * f⟩
  else if side = "left" then
    some ⟨b.minx, b.miny, b.minx + width * f, b.maxy⟩
  else if side = "right" then
    some ⟨b.maxx - width * f, b.miny, b.maxx, b.maxy⟩
  else
    none

/-- Embedding of `_get_clipped_representative_point(geometry, clip_side,
clip_percentage)` (plotter.py lines 254-296): build the clip rectangle,
intersect, and return the intersection's representative point (falling back
to the intersection's centroid when that point is not strictly contained),
or fall back to the full geometry's representative point when the side is
invalid or the intersection is empty.  In the box model every geometry is
valid, so the `is_valid` conjunct of the source's emptiness check is always
true. -/
def getClippedRepresentativePoint (g : Geometry) (clipSide : String) (clipPercentage : ℚ) :
    Point :=
  match clipRect (boundsG g) clipSide clipPercentage with
  | none => repPoint g
  | some r =>
    let clippedGeom := interG g r
    if clippedGeom.isEmpty then repPoint g
    else
      let point := repPoint clippedGeom
      if containsB clippedGeom point then point else centroidPt clippedGeom

/-- Embedding of the default label anchor of the main-map labeling loop
(plotter.py lines 730-734): the representative point, replaced by the
centroid when the geometry does not (strictly) contain it. -/
def defaultAnchor (g : Geometry) : Point :=
  let point := repPoint g
  if containsB g point then point else centroidPt g

/-- The `label_settings` section of the YAML config, restricted to the keys
the labeling loop reads (plotter.py lines 687-700). -/
structure LabelCfg where
  addLabels : Bool
  smallRegions : List String
  offsets : List (String × ℚ × ℚ)
  clippedRegions : List (String × String × ℚ)
  arrowprops : Option String
deriving DecidableEq, Repr

/-- What the labeling loop draws for one region: either `main_ax.annotate`
with an anchor `xy`, a text position `xytext` and optional arrow properties,
or `main_ax.text` directly at a position (plotter.py lines 744-750). -/
inductive LabelDraw where
  | annotated (xy : Point) (xytext : Point) (arrowprops : Option String)
  | direct (pos : Point)
deriving DecidableEq, Repr

/-- The label anchor computed for a main-map region (plotter.py lines
719-737): the clipped representative point when the region code is in
`clipped_regions`, otherwise the default representative-point/centroid
anchor. -/
def labelAnchor (lc : LabelCfg) (code : String) (g : Geometry) : Point :=
  match List.lookup code lc.clippedRegions with
  | some (side, pct) => getClippedRepresentativePoint g side pct
  | none => defaultAnchor g

/-- Embedding of the per-region label drawing of the main-map loop
(plotter.py lines 719-750): compute the anchor, then annotate at
`(x + offset_lon, y + offset_lat)` with the arrow pointing back to the
anchor when the region code is in `small_regions` **and** in `offsets`,
otherwise draw direct text at the anchor. -/
def labelFor (lc : LabelCfg) (code : String) (g : Geometry) : LabelDraw :=
  let point := labelAnchor lc code g
  match (if code ∈ lc.smallRegions then List.lookup code lc.offsets else none) with
  | some (offsetLon, offsetLat) =>
    .annotated point ⟨point.x + offsetLon, point.y + offsetLat⟩ lc.arrowprops
  | none => .direct point

/-- One row of the `level1_gdf` GeoDataFrame handed to
`plot_choropleth_from_config`: region name, Level-1 code (the
`level1_code_column`), country code (the `country_code_column`), the value
column entry (`none` models NaN) and the geometry. -/
structure L1Row where
  name : String
  code : String
  country : String
  value : Option ℚ
  geom : Geometry
deriving DecidableEq, Repr

/-- The `level1_gdf` dataframe together with the presence of the columns the
function checks for (`value_column_name`, the Level-1 code column and the
country code column, plotter.py lines 336-350). -/
structure L1Frame where
  rows : List L1Row
  hasValueCol : Bool
  hasCodeCol : Bool
  hasCountryCol : Bool
deriving DecidableEq, Repr

/-- One entry of the `inset_level1_regions` config list, restricted to the
`codes` key the partitioning logic reads. -/
structure InsetDef where
  codes : List String
deriving DecidableEq, Repr

/-- The YAML config keys `plot_choropleth_from_config` reads to partition the
data: `country_codes`, `main_level1_codes` (`none` models YAML null),
`inset_level1_regions` and `label_settings`. -/
structure PlotConfig where
  countryCodes : List String
  mainLevel1Codes : Option (List String)
  insets : List InsetDef
  labelCfg : LabelCfg
deriving DecidableEq, Repr

/-- The matplotlib normalization object built at plotter.py lines 405-417:
either `plt.Normalize()` with default bounds (when the min or max of the
value column is NaN) or `plt.Normalize(vmin, vmax)`. -/
inductive NormSpec where
  | default
  | bounds (vmin vmax : ℚ)
deriving DecidableEq, Repr

/-- Pandas `Series.min()` over an optional-valued column: NaN entries are
skipped, and the result is NaN (`none`) only when every entry is NaN. -/
def minValOpt (vs : List (Option ℚ)) : Option ℚ :=
  vs.foldl
    (fun acc v =>
      match acc, v with
      | none, v => v
      | some a, none => some a
      | some a, some b => some (min a b)) none

/-- Pandas `Series.max()` over an optional-valued column, skipping NaN. -/
def maxValOpt (vs : List (Option ℚ)) : Option ℚ :=
  vs.foldl
    (fun acc v =>
      match acc, v with
      | none, v => v
      | some a, none => some a
      | some a, some b => some (max a b)) none

/-- The normalization computed from the full target value column
(plotter.py lines 406-417). -/
def computeNorm (vs : List (Option ℚ)) : NormSpec :=
  match minValOpt vs, maxValOpt vs with
  | some mn, some mx => .bounds mn mx
  | _, _ => .default

/-- One inset as actually plotted (plotter.py lines 589-644): its configured
codes, the rows of `target_l1_gdf` matching those codes, and the
normalization object passed to its `plot` call. -/
structure InsetRender where
  codes : List String
  rows : List L1Row
  norm : NormSpec
deriving DecidableEq, Repr

/-- What a successful run of `plot_choropleth_from_config` draws: the
main-view region set, the normalization used for the main data pass, the
insets, and the main-map labels (empty when `add_labels` is off). -/
structure RenderResult where
  mainView : List L1Row
  norm : NormSpec
  insets : List InsetRender
  labels : List LabelDraw
deriving DecidableEq, Repr

/-- Log level of the message emitted on an early return. -/
inductive LogLevel where
  | error
  | warning
deriving DecidableEq, Repr

/-- Outcome of a call to `plot_choropleth_from_config`: the function can in
principle propagate an exception such as the MCP layer's
`ConfigurationError`, return early after logging (a silent `return`,
producing no plot), or render.  The embedding of the source only ever
produces the latter two. -/
inductive Outcome where
  | raisedConfigurationError
  | aborted (level : LogLevel)
  | rendered (res : RenderResult)
deriving DecidableEq, Repr

/-- The union of the `codes` lists of all inset definitions
(plotter.py lines 369-371), kept as a list. -/
def allInsetCodes (insets : List InsetDef) : List String :=
  insets.foldl (fun s i => s ++ i.codes) []

/-- Embedding of the data-selection, normalization, inset and labeling logic
of `plot_choropleth_from_config` (plotter.py lines 299-450 and 589-750),
omitting the purely graphical draw calls.  Every `logging.error(...); return`
of the source becomes `.aborted .error`. -/
def plotChoroplethFromConfig (cfg : PlotConfig) (frame : L1Frame) : Outcome :=
  if frame.rows.isEmpty then .aborted .error
  else if ¬ frame.hasValueCol then .aborted .error
  else if ¬ frame.hasCodeCol then .aborted .error
  else if ¬ frame.hasCountryCol then .aborted .error
  else if cfg.countryCodes.isEmpty then .aborted .error
  else
    let targetL1 := frame.rows.filter (fun r : L1Row => decide (r.country ∈ cfg.countryCodes))
    if targetL1.isEmpty then .aborted .error
    else
      let insetCodes := allInsetCodes cfg.insets
      let mainView :=
        match cfg.mainLevel1Codes with
        | none => targetL1.filter (fun r : L1Row => decide (r.code ∉ insetCodes))
        | some codes => targetL1.filter (fun r : L1Row => decide (r.code ∈ codes))
      if mainView.isEmpty then .aborted .error
      else
        let norm := computeNorm (targetL1.map (fun r : L1Row => r.value))
        let insetRenders := cfg.insets.filterMap (fun i : InsetDef =>
          if i.codes.isEmpty then none
          else
            let insetGdf := targetL1.filter (fun r : L1Row => decide (r.code ∈ i.codes))
            if insetGdf.isEmpty then none
            else some ⟨i.codes, insetGdf, norm⟩)
        let labels :=
          if cfg.labelCfg.addLabels then
            mainView.map (fun r : L1Row => labelFor cfg.labelCfg r.code r.geom)
          else []
        .rendered ⟨mainView, norm, insetRenders, labels⟩

/-- One row of the Natural Earth admin-1 source table as `prepare_geo_data`
uses it after the name-column rename: the `NAME` join key, the `iso_a2`
country code and the geometry. -/
structure SrcRow where
  name : String
  isoA2 : String
  geom : Geometry
deriving DecidableEq, Repr

/-- One row of the merged result of `prepare_geo_data`: the source row plus
the optional value column entry (`none` models NaN). -/
structure MergedRow where
  src : SrcRow
  value : Option ℚ
deriving DecidableEq, Repr

/-- Embedding of `states_gdf_subset.merge(data_df, on='NAME', how='left')`
(plotter.py line 156): pandas' left merge emits, for each left row, one
output row per matching right row, or a single row with a NaN value when no
right row matches. -/
def leftMergeOnName (states : List SrcRow) (dataDf : List (String × ℚ)) :
    List MergedRow :=
  states.flatMap (fun r : SrcRow =>
    let matchRows := dataDf.filter (fun kv => decide (kv.1 = r.name))
    if matchRows.isEmpty then [⟨r, none⟩]
    else matchRows.map (fun kv => ⟨r, some kv.2⟩))

/-- Embedding of the data path of `prepare_geo_data` (plotter.py lines
41-166): build `data_df` from `data_dict` (whose keys, being dict keys, are
distinct), filter the admin-1 table to the target country codes, abort with
`None` when the filter is empty (lines 92-95), and left-merge the values on
`NAME` keeping every row (lines 153-166).  The download, column-rename and
lakes/countries branches are I/O and are outside the model. -/
def prepareGeoData (dataDict : List (String × ℚ)) (allLevel1 : List SrcRow)
    (targetCountryCodes : List String) : Option (List MergedRow) :=
  if dataDict.isEmpty then none
  else
    let statesGdf := allLevel1.filter (fun r : SrcRow => decide (r.isoA2 ∈ targetCountryCodes))
    if statesGdf.isEmpty then none
    else some (leftMergeOnName statesGdf dataDict)

/-! ### Helper lemmas -/

theorem strictWithin_imp_within (b : Box) (p : Point)
    (h : strictWithinB b p = true) : withinB b p = true := by
  simp only [strictWithinB, Bool.and_eq_true, decide_eq_true_eq] at h
  simp only [withinB, Bool.and_eq_true, decide_eq_true_eq]
  exact ⟨⟨⟨le_of_lt h.1.1.1, le_of_lt h.1.1.2⟩, le_of_lt h.1.2⟩, le_of_lt h.2⟩

theorem mem_of_contains (g : Geometry) (p : Point)
    (h : containsB g p = true) : memB g p = true := by
  simp only [containsB, List.any_eq_true] at h
  obtain ⟨b, hb, hsb⟩ := h
  simp only [memB, List.any_eq_true]
  exact ⟨b, hb, strictWithin_imp_within b p hsb⟩

theorem mem_foldl_append_of_mem_acc (insets : List InsetDef) (c : String) :
    ∀ acc : List String, c ∈ acc →
      c ∈ insets.foldl (fun s j => s ++ j.codes) acc := by
  induction insets with
  | nil => intro acc h; simpa using h
  | cons hd tl ih => intro acc h; exact ih _ (List.mem_append_left _ h)

theorem mem_foldl_append (insets : List InsetDef) (i : InsetDef) (c : String) :
    i ∈ insets → c ∈ i.codes → ∀ acc : List String,
      c ∈ insets.foldl (fun s j => s ++ j.codes) acc := by
  induction insets with
  | nil => intro hi _ _; exact absurd hi (List.not_mem_nil _)
  | cons hd tl ih =>
    intro hi hc acc
    rcases List.mem_cons.mp hi with h | h
    · subst h
      exact mem_foldl_append_of_mem_acc tl c _ (List.mem_append_right _ hc)
    · exact ih h hc _

theorem mem_allInsetCodes (insets : List InsetDef) (i : InsetDef) (c : String)
    (hi : i ∈ insets) (hc : c ∈ i.codes) : c ∈ allInsetCodes insets :=
  mem_foldl_append insets i c hi hc []

/-! ### C1 -/

/-- C1: when `main_level1_codes` is null, the main view computed by
`plot_choropleth_from_config` is exactly the country-filtered feature set
minus the union of all inset codes, so the main view is disjoint from every
inset's region set. -/
theorem main_view_default_exclusion (cfg : PlotConfig) (frame : L1Frame)
    (res : RenderResult)
    (hnull : cfg.mainLevel1Codes = none)
    (hres : plotChoroplethFromConfig cfg frame = Outcome.rendered res) :
    res.mainView =
      (frame.rows.filter (fun r : L1Row => decide (r.country ∈ cfg.countryCodes))).filter
        (fun r : L1Row => decide (r.code ∉ allInsetCodes cfg.insets)) ∧
    ∀ ins ∈ res.insets, ∀ r ∈ res.mainView, r ∉ ins.rows := by
  simp only [plotChoroplethFromConfig, hnull] at hres
  split at hres
  · cases hres
  split at hres
  · cases hres
  split at hres
  · cases hres
  split at hres
  · cases hres
  split at hres
  · cases hres
  split at hres
  · cases hres
  split at hres
  · cases hres
  cases hres
  refine ⟨rfl, ?_⟩
  intro ins hins r hr hrins
  obtain ⟨i, hi, hfi⟩ := List.mem_filterMap.mp hins
  split at hfi
  · cases hfi
  split at hfi
  · cases hfi
  cases hfi
  have hrmain := List.mem_filter.mp hr
  have hrcode : r.code ∉ allInsetCodes cfg.insets := by
    simpa using hrmain.2
  have hrins2 := List.mem_filter.mp hrins
  have hrcodein : r.code ∈ i.codes := by
    simpa using hrins2.2
  exact hrcode (mem_allInsetCodes cfg.insets i r.code hi hrcodein)

/-- A two-region, one-inset configuration used to witness C1. -/
def witCfgC1 : PlotConfig := ⟨["US"], none, [⟨["A"]⟩], ⟨false, [], [], [], none⟩⟩

/-- The dataframe for the C1 witness: regions `A` and `B` of country `US`. -/
def witFrameC1 : L1Frame :=
  ⟨[⟨"Alpha", "A", "US", some 10, [⟨0, 0, 1, 1⟩]⟩,
    ⟨"Beta", "B", "US", some 20, [⟨2, 0, 3, 1⟩]⟩], true, true, true⟩

/-- The render result the pipeline produces on the C1 witness input. -/
def witResC1 : RenderResult :=
  ⟨[⟨"Beta", "B", "US", some 20, [⟨2, 0, 3, 1⟩]⟩],
   .bounds 10 20,
   [⟨["A"], [⟨"Alpha", "A", "US", some 10, [⟨0, 0, 1, 1⟩]⟩], .bounds 10 20⟩],
   []⟩

/-- Witness for C1: on a concrete config with inset `{codes: ["A"]}` and
`main_level1_codes` null, the main view is `{B}` and is disjoint from the
inset `{A}`. -/
theorem main_view_default_exclusion_witness :
    witCfgC1.mainLevel1Codes = none ∧
    plotChoroplethFromConfig witCfgC1 witFrameC1 = Outcome.rendered witResC1 ∧
    (witResC1.mainView =
      (witFrameC1.rows.filter
          (fun r : L1Row => decide (r.country ∈ witCfgC1.countryCodes))).filter
        (fun r : L1Row => decide (r.code ∉ allInsetCodes witCfgC1.insets)) ∧
     ∀ ins ∈ witResC1.insets, ∀ r ∈ witResC1.mainView, r ∉ ins.rows) :=
  ⟨rfl, by decide,
   main_view_default_exclusion witCfgC1 witFrameC1 witResC1 rfl (by decide)⟩

/-! ### C2 -/

theorem filter_key_nodup (dataDf : List (String × ℚ)) (a : String)
    (h : (dataDf.map Prod.fst).Nodup) :
    (dataDf.filter (fun kv => decide (kv.1 = a))).length ≤ 1 := by
  induction dataDf with
  | nil => simp
  | cons kv rest ih =>
    simp only [List.map_cons, List.nodup_cons] at h
    by_cases hk : kv.1 = a
    · have hrest : rest.filter (fun kv2 => decide (kv2.1 = a)) = [] := by
        apply List.filter_eq_nil_iff.mpr
        intro kv2 hkv2
        simp only [decide_eq_true_eq]
        intro he
        exact h.1 ((hk.trans he.symm) ▸ List.mem_map_of_mem Prod.fst hkv2)
      simp [List.filter_cons, hk, hrest]
    · simp only [List.filter_cons, hk, decide_False, if_false]
      exact ih h.2

theorem merge_contribution (r : SrcRow) (dataDf : List (String × ℚ))
    (h : (dataDf.map Prod.fst).Nodup) :
    ∃ v : Option ℚ,
      (if (dataDf.filter (fun kv => decide (kv.1 = r.name))).isEmpty
       then [(⟨r, none⟩ : MergedRow)]
       else (dataDf.filter (fun kv => decide (kv.1 = r.name))).map
              (fun kv => (⟨r, some kv.2⟩ : MergedRow))) = [⟨r, v⟩] ∧
      ((∀ kv ∈ dataDf, kv.1 ≠ r.name) → v = none) := by
  by_cases he : (dataDf.filter (fun kv => decide (kv.1 = r.name))).isEmpty
  · exact ⟨none, by simp [he], fun _ => rfl⟩
  · have hlen := filter_key_nodup dataDf r.name h
    have hpos : 0 < (dataDf.filter (fun kv => decide (kv.1 = r.name))).length := by
      cases hfil : dataDf.filter (fun kv => decide (kv.1 = r.name)) with
      | nil => rw [hfil] at he; simp at he
      | cons a l => simp
    have hlen1 : (dataDf.filter (fun kv => decide (kv.1 = r.name))).length = 1 := by
      omega
    obtain ⟨kv, hkv⟩ := List.length_eq_one.mp hlen1
    refine ⟨some kv.2, by simp [he, hkv], ?_⟩
    intro hno
    exfalso
    have hmemf : kv ∈ dataDf.filter (fun kv2 => decide (kv2.1 = r.name)) := by
      simp [hkv]
    have hmem := List.mem_filter.mp hmemf
    exact hno kv hmem.1 (by simpa using hmem.2)

theorem leftMergeOnName_spec (states : List SrcRow) (dataDf : List (String × ℚ))
    (h : (dataDf.map Prod.fst).Nodup) :
    (leftMergeOnName states dataDf).map MergedRow.src = states ∧
    ∀ m ∈ leftMergeOnName states dataDf,
      (∀ kv ∈ dataDf, kv.1 ≠ m.src.name) → m.value = none := by
  induction states with
  | nil => simp [leftMergeOnName]
  | cons r rest ih =>
    obtain ⟨v, hv, hvnone⟩ := merge_contribution r dataDf h
    have hcons : leftMergeOnName (r :: rest) dataDf =
        (if (dataDf.filter (fun kv => decide (kv.1 = r.name))).isEmpty
         then [(⟨r, none⟩ : MergedRow)]
         else (dataDf.filter (fun kv => decide (kv.1 = r.name))).map
                (fun kv => (⟨r, some kv.2⟩ : MergedRow))) ++
          leftMergeOnName rest dataDf := rfl
    rw [hcons, hv]
    constructor
    · simpa using ih.1
    · intro m hm hno
      rcases List.mem_append.mp hm with hm1 | hm2
      · have hmv : m = ⟨r, v⟩ := by simpa using hm1
        subst hmv
        exact hvnone hno
      · exact ih.2 m hm2 hno

/-- C2: the merge in `prepare_geo_data` has left-join semantics — every
geometry row of the country-filtered input appears exactly once in the
merged result (its length equals the filtered geometry's length and the
sources of the merged rows are exactly the filtered rows, in order), and a
row whose name matches no key of the data dict gets an absent value. -/
theorem prepare_geo_data_left_join (dataDict : List (String × ℚ))
    (allLevel1 : List SrcRow) (targetCountryCodes : List String)
    (merged : List MergedRow)
    (hnodup : (dataDict.map Prod.fst).Nodup)
    (h : prepareGeoData dataDict allLevel1 targetCountryCodes = some merged) :
    merged.length =
      (allLevel1.filter (fun r : SrcRow => decide (r.isoA2 ∈ targetCountryCodes))).length ∧
    merged.map MergedRow.src =
      allLevel1.filter (fun r : SrcRow => decide (r.isoA2 ∈ targetCountryCodes)) ∧
    ∀ m ∈ merged, (∀ kv ∈ dataDict, kv.1 ≠ m.src.name) → m.value = none := by
  simp only [prepareGeoData] at h
  split at h
  · cases h
  split at h
  · cases h
  cases h
  obtain ⟨hmap, hnone⟩ := leftMergeOnName_spec
    (allLevel1.filter (fun r : SrcRow => decide (r.isoA2 ∈ targetCountryCodes)))
    dataDict hnodup
  refine ⟨?_, hmap, hnone⟩
  calc (leftMergeOnName _ dataDict).length
      = ((leftMergeOnName _ dataDict).map MergedRow.src).length := (List.length_map _ _).symm
    _ = _ := by rw [hmap]

/-- Witness for C2: a three-row geometry table filtered to `US`, with one
matching value row; the merge keeps both `US` rows, in order, and the
unmatched one gets an absent value. -/
theorem prepare_geo_data_left_join_witness :
    ((([("Alpha", (5 : ℚ))]).map Prod.fst).Nodup) ∧
    prepareGeoData [("Alpha", 5)]
      [⟨"Alpha", "US", [⟨0, 0, 1, 1⟩]⟩, ⟨"Beta", "US", [⟨2, 0, 3, 1⟩]⟩,
       ⟨"Gamma", "CA", [⟨4, 0, 5, 1⟩]⟩] ["US"] =
      some [⟨⟨"Alpha", "US", [⟨0, 0, 1, 1⟩]⟩, some 5⟩,
            ⟨⟨"Beta", "US", [⟨2, 0, 3, 1⟩]⟩, none⟩] ∧
    ([(⟨⟨"Alpha", "US", [⟨0, 0, 1, 1⟩]⟩, some 5⟩ : MergedRow),
      ⟨⟨"Beta", "US", [⟨2, 0, 3, 1⟩]⟩, none⟩].length =
      (([⟨"Alpha", "US", [⟨0, 0, 1, 1⟩]⟩, ⟨"Beta", "US", [⟨2, 0, 3, 1⟩]⟩,
         ⟨"Gamma", "CA", [⟨4, 0, 5, 1⟩]⟩] : List SrcRow).filter
          (fun r : SrcRow => decide (r.isoA2 ∈ ["US"]))).length ∧
     [(⟨⟨"Alpha", "US", [⟨0, 0, 1, 1⟩]⟩, some 5⟩ : MergedRow),
      ⟨⟨"Beta", "US", [⟨2, 0, 3, 1⟩]⟩, none⟩].map MergedRow.src =
      ([⟨"Alpha", "US", [⟨0, 0, 1, 1⟩]⟩, ⟨"Beta", "US", [⟨2, 0, 3, 1⟩]⟩,
        ⟨"Gamma", "CA", [⟨4, 0, 5, 1⟩]⟩] : List SrcRow).filter
        (fun r : SrcRow => decide (r.isoA2 ∈ ["US"])) ∧
     ∀ m ∈ [(⟨⟨"Alpha", "US", [⟨0, 0, 1, 1⟩]⟩, some 5⟩ : MergedRow),
            ⟨⟨"Beta", "US", [⟨2, 0, 3, 1⟩]⟩, none⟩],
       (∀ kv ∈ [("Alpha", (5 : ℚ))], kv.1 ≠ m.src.name) → m.value = none) :=
  ⟨by decide, by decide,
   prepare_geo_data_left_join [("Alpha", 5)]
     [⟨"Alpha", "US", [⟨0, 0, 1, 1⟩]⟩, ⟨"Beta", "US", [⟨2, 0, 3, 1⟩]⟩,
      ⟨"Gamma", "CA", [⟨4, 0, 5, 1⟩]⟩] ["US"] _ (by decide) (by decide)⟩

/-! ### C3 -/

/-- C3: the colormap normalization bounds used by
`plot_choropleth_from_config` are the min and max of the value column over
the full country-filtered target set (`target_l1_gdf`), not over the
main-view subset, and every inset's plot call receives the very same
normalization object as the main-view data pass. -/
theorem norm_bounds_full_target (cfg : PlotConfig) (frame : L1Frame)
    (res : RenderResult) (mn mx : ℚ)
    (hres : plotChoroplethFromConfig cfg frame = Outcome.rendered res)
    (hmn : minValOpt ((frame.rows.filter
        (fun r : L1Row => decide (r.country ∈ cfg.countryCodes))).map
          (fun r : L1Row => r.value)) = some mn)
    (hmx : maxValOpt ((frame.rows.filter
        (fun r : L1Row => decide (r.country ∈ cfg.countryCodes))).map
          (fun r : L1Row => r.value)) = some mx) :
    res.norm = NormSpec.bounds mn mx ∧
    ∀ ins ∈ res.insets, ins.norm = res.norm := by
  simp only [plotChoroplethFromConfig] at hres
  split at hres
  · cases hres
  split at hres
  · cases hres
  split at hres
  · cases hres
  split at hres
  · cases hres
  split at hres
  · cases hres
  split at hres
  · cases hres
  split at hres
  · cases hres
  cases hres
  constructor
  · simp only [computeNorm, hmn, hmx]
  · intro ins hins
    obtain ⟨i, hi, hfi⟩ := List.mem_filterMap.mp hins
    split at hfi
    · cases hfi
    split at hfi
    · cases hfi
    cases hfi
    rfl

/-- Witness for C3: on the C1 witness input the normalization bounds are
`(10, 20)`, the min and max over the full target set (the main view alone
only carries the value `20`), and the single inset uses the same
normalization. -/
theorem norm_bounds_full_target_witness :
    plotChoroplethFromConfig witCfgC1 witFrameC1 = Outcome.rendered witResC1 ∧
    minValOpt ((witFrameC1.rows.filter
        (fun r : L1Row => decide (r.country ∈ witCfgC1.countryCodes))).map
          (fun r : L1Row => r.value)) = some 10 ∧
    maxValOpt ((witFrameC1.rows.filter
        (fun r : L1Row => decide (r.country ∈ witCfgC1.countryCodes))).map
          (fun r : L1Row => r.value)) = some 20 ∧
    (witResC1.norm = NormSpec.bounds 10 20 ∧
     ∀ ins ∈ witResC1.insets, ins.norm = witResC1.norm) :=
  ⟨by decide, by decide, by decide,
   norm_bounds_full_target witCfgC1 witFrameC1 witResC1 10 20
     (by decide) (by decide) (by decide)⟩

/-! ### C4 -/

theorem clipRect_top (b : Box) (f : ℚ) :
    clipRect b "top" f = some ⟨b.minx, b.maxy - (b.maxy - b.miny) * f, b.maxx, b.maxy⟩ := rfl

theorem clipRect_bottom (b : Box) (f : ℚ) :
    clipRect b "bottom" f = some ⟨b.minx, b.miny, b.maxx, b.miny + (b.maxy - b.miny) * f⟩ := rfl

theorem clipRect_left (b : Box) (f : ℚ) :
    clipRect b "left" f = some ⟨b.minx, b.miny, b.minx + (b.maxx - b.minx) * f, b.maxy⟩ := rfl

theorem clipRect_right (b : Box) (f : ℚ) :
    clipRect b "right" f = some ⟨b.maxx - (b.maxx - b.minx) * f, b.miny, b.maxx, b.maxy⟩ := rfl

theorem unit_top_clip :
    clipRect (boundsG [(⟨0, 0, 1, 1⟩ : Box)]) "top" (1/2) = some ⟨0, 1/2, 1, 1⟩ := by
  rw [show boundsG [(⟨0, 0, 1, 1⟩ : Box)] = ⟨0, 0, 1, 1⟩ from rfl, clipRect_top]
  simp only [Option.some.injEq, Box.mk.injEq]
  norm_num

theorem unit_top_inter :
    interG [(⟨0, 0, 1, 1⟩ : Box)] ⟨0, 1/2, 1, 1⟩ = [⟨0, 1/2, 1, 1⟩] := by
  norm_num [interG, interBox, List.filterMap_cons, max_def, min_def]

theorem unit_top_point :
    getClippedRepresentativePoint [(⟨0, 0, 1, 1⟩ : Box)] "top" (1/2) = ⟨1/2, 3/4⟩ := by
  unfold getClippedRepresentativePoint
  rw [unit_top_clip]
  simp only [unit_top_inter]
  norm_num [containsB, strictWithinB, repPoint, Box.center, List.isEmpty_cons,
    Point.mk.injEq]

/-- The property C4 asserts of the clipping rectangle: it spans the full
bounding box along the unclipped axis, is flush against the named side, and
covers the named fraction of the box's extent along the clipped axis. -/
def coversFraction (b r : Box) (side : String) (f : ℚ) : Prop :=
  if side = "top" then
    r.minx = b.minx ∧ r.maxx = b.maxx ∧ r.maxy = b.maxy ∧
    r.maxy - r.miny = f * (b.maxy - b.miny)
  else if side = "bottom" then
    r.minx = b.minx ∧ r.maxx = b.maxx ∧ r.miny = b.miny ∧
    r.maxy - r.miny = f * (b.maxy - b.miny)
  else if side = "left" then
    r.miny = b.miny ∧ r.maxy = b.maxy ∧ r.minx = b.minx ∧
    r.maxx - r.minx = f * (b.maxx - b.minx)
  else if side = "right" then
    r.miny = b.miny ∧ r.maxy = b.maxy ∧ r.maxx = b.maxx ∧
    r.maxx - r.minx = f * (b.maxx - b.minx)
  else False

/-- C4: for a valid side and a fraction in `(0, 1]`,
`_get_clipped_representative_point` builds a clipping rectangle covering the
named fraction of the geometry's bounding box flush against the named side,
and (whenever the intersection with the geometry contains its own
representative point, the non-degenerate case) returns a point of that
intersection; in particular clipping `{side: top, fraction: 1/2}` on the
unit square yields the band `y ∈ [1/2, 1]` and the returned point
`(1/2, 3/4)` lies in that band. -/
theorem clipped_representative_point_spec (g : Geometry) (side : String) (f : ℚ)
    (hside : side = "top" ∨ side = "bottom" ∨ side = "left" ∨ side = "right")
    (_hf0 : 0 < f) (_hf1 : f ≤ 1) :
    (∃ r, clipRect (boundsG g) side f = some r ∧
      coversFraction (boundsG g) r side f) ∧
    (∀ r, clipRect (boundsG g) side f = some r →
      containsB (interG g r) (repPoint (interG g r)) = true →
      memB (interG g r) (getClippedRepresentativePoint g side f) = true) ∧
    (clipRect (boundsG [(⟨0, 0, 1, 1⟩ : Box)]) "top" (1/2) =
        some ⟨0, 1/2, 1, 1⟩ ∧
     interG [(⟨0, 0, 1, 1⟩ : Box)] ⟨0, 1/2, 1, 1⟩ = [⟨0, 1/2, 1, 1⟩] ∧
     getClippedRepresentativePoint [(⟨0, 0, 1, 1⟩ : Box)] "top" (1/2) =
        ⟨1/2, 3/4⟩ ∧
     (1 : ℚ)/2 ≤ (getClippedRepresentativePoint [(⟨0, 0, 1, 1⟩ : Box)] "top" (1/2)).y ∧
     (getClippedRepresentativePoint [(⟨0, 0, 1, 1⟩ : Box)] "top" (1/2)).y ≤ 1) := by
  refine ⟨?_, ?_, unit_top_clip, unit_top_inter, unit_top_point,
    by rw [unit_top_point]; norm_num, by rw [unit_top_point]; norm_num⟩
  · rcases hside with h | h | h | h <;> subst h
    · refine ⟨_, clipRect_top (boundsG g) f, ?_⟩
      unfold coversFraction
      rw [if_pos rfl]
      exact ⟨rfl, rfl, rfl, by ring⟩
    · refine ⟨_, clipRect_bottom (boundsG g) f, ?_⟩
      unfold coversFraction
      rw [if_neg (by decide), if_pos rfl]
      exact ⟨rfl, rfl, rfl, by ring⟩
    · refine ⟨_, clipRect_left (boundsG g) f, ?_⟩
      unfold coversFraction
      rw [if_neg (by decide), if_neg (by decide), if_pos rfl]
      exact ⟨rfl, rfl, rfl, by ring⟩
    · refine ⟨_, clipRect_right (boundsG g) f, ?_⟩
      unfold coversFraction
      rw [if_neg (by decide), if_neg (by decide), if_neg (by decide), if_pos rfl]
      exact ⟨rfl, rfl, rfl, by ring⟩
  · intro r hr hcont
    have hne : (interG g r).isEmpty = false := by
      cases hgi : interG g r with
      | nil => rw [hgi] at hcont; simp [containsB] at hcont
      | cons a l => simp
    simp only [getClippedRepresentativePoint, hr, hne, Bool.false_eq_true,
      if_false, hcont, if_true]
    exact mem_of_contains _ _ hcont

/-- Witness for C4 at the unit square with `side = top`, `fraction = 1/2`. -/
theorem clipped_representative_point_spec_witness :
    (("top" = "top" ∨ "top" = "bottom" ∨ "top" = "left" ∨ "top" = "right") ∧
     (0 : ℚ) < 1/2 ∧ (1 : ℚ)/2 ≤ 1) ∧
    ((∃ r, clipRect (boundsG [(⟨0, 0, 1, 1⟩ : Box)]) "top" (1/2) = some r ∧
       coversFraction (boundsG [(⟨0, 0, 1, 1⟩ : Box)]) r "top" (1/2)) ∧
     (∀ r, clipRect (boundsG [(⟨0, 0, 1, 1⟩ : Box)]) "top" (1/2) = some r →
       containsB (interG [(⟨0, 0, 1, 1⟩ : Box)] r)
           (repPoint (interG [(⟨0, 0, 1, 1⟩ : Box)] r)) = true →
       memB (interG [(⟨0, 0, 1, 1⟩ : Box)] r)
           (getClippedRepresentativePoint [(⟨0, 0, 1, 1⟩ : Box)] "top" (1/2)) = true) ∧
     (clipRect (boundsG [(⟨0, 0, 1, 1⟩ : Box)]) "top" (1/2) =
         some ⟨0, 1/2, 1, 1⟩ ∧
      interG [(⟨0, 0, 1, 1⟩ : Box)] ⟨0, 1/2, 1, 1⟩ = [⟨0, 1/2, 1, 1⟩] ∧
      getClippedRepresentativePoint [(⟨0, 0, 1, 1⟩ : Box)] "top" (1/2) =
         ⟨1/2, 3/4⟩ ∧
      (1 : ℚ)/2 ≤ (getClippedRepresentativePoint [(⟨0, 0, 1, 1⟩ : Box)] "top" (1/2)).y ∧
      (getClippedRepresentativePoint [(⟨0, 0, 1, 1⟩ : Box)] "top" (1/2)).y ≤ 1)) :=
  ⟨⟨Or.inl rfl, by norm_num, by norm_num⟩,
   clipped_representative_point_spec [(⟨0, 0, 1, 1⟩ : Box)] "top" (1/2)
     (Or.inl rfl) (by norm_num) (by norm_num)⟩

/-! ### C5 -/

/-- Counterexample to C5: the merge of `prepare_geo_data` does no whitespace
trimming — a geometry row named `"A "` (which is `"A"` with one trailing
space) does not match the value row keyed `"A"` and comes out with an
absent value instead of the value `10`. -/
theorem join_no_key_normalization_cex :
    ("A " = "A" ++ " ") ∧
    leftMergeOnName [⟨"A ", "US", [⟨0, 0, 1, 1⟩]⟩] [("A", 10)] =
      [⟨⟨"A ", "US", [⟨0, 0, 1, 1⟩]⟩, none⟩] := by
  constructor
  · decide
  · decide

/-- C5 amended: the merge compares keys by exact string equality, with no
trimming of surrounding whitespace and no numeric-to-string coercion — a
merged row has an absent value exactly when no data key is literally equal
to its geometry row's name. -/
theorem join_exact_match_only (states : List SrcRow) (dataDf : List (String × ℚ)) :
    ∀ m ∈ leftMergeOnName states dataDf,
      (m.value = none ↔ ∀ kv ∈ dataDf, kv.1 ≠ m.src.name) := by
  induction states with
  | nil => simp [leftMergeOnName]
  | cons r rest ih =>
    intro m hm
    have hcons : leftMergeOnName (r :: rest) dataDf =
        (if (dataDf.filter (fun kv => decide (kv.1 = r.name))).isEmpty
         then [(⟨r, none⟩ : MergedRow)]
         else (dataDf.filter (fun kv => decide (kv.1 = r.name))).map
                (fun kv => (⟨r, some kv.2⟩ : MergedRow))) ++
          leftMergeOnName rest dataDf := rfl
    rw [hcons] at hm
    rcases List.mem_append.mp hm with hm1 | hm2
    · by_cases he : (dataDf.filter (fun kv => decide (kv.1 = r.name))).isEmpty = true
      · rw [if_pos he] at hm1
        have hmv : m = ⟨r, none⟩ := by simpa using hm1
        subst hmv
        rw [List.isEmpty_iff] at he
        constructor
        · intro _ kv hkv heq
          have hmemf : kv ∈ dataDf.filter (fun kv2 => decide (kv2.1 = r.name)) :=
            List.mem_filter.mpr ⟨hkv, by simpa using heq⟩
          rw [he] at hmemf
          cases hmemf
        · intro _
          rfl
      · rw [if_neg he] at hm1
        obtain ⟨kv, hkv, hexact⟩ := List.mem_map.mp hm1
        have hmv : m = ⟨r, some kv.2⟩ := hexact.symm
        subst hmv
        constructor
        · intro hnone
          cases hnone
        · intro hall
          exfalso
          have hkvf := List.mem_filter.mp hkv
          exact hall kv hkvf.1 (by simpa using hkvf.2)
    · exact ih m hm2

/-- Witness for C5's amended claim: the row named `"Beta"` matches no key of
the one-entry data table, so its merged value is absent. -/
theorem join_exact_match_only_witness :
    (⟨⟨"Beta", "US", [⟨0, 0, 1, 1⟩]⟩, none⟩ : MergedRow) ∈
      leftMergeOnName [⟨"Beta", "US", [⟨0, 0, 1, 1⟩]⟩] [("A", (7 : ℚ))] ∧
    ((⟨⟨"Beta", "US", [⟨0, 0, 1, 1⟩]⟩, none⟩ : MergedRow).value = none ↔
      ∀ kv ∈ [("A", (7 : ℚ))],
        kv.1 ≠ (⟨⟨"Beta", "US", [⟨0, 0, 1, 1⟩]⟩, none⟩ : MergedRow).src.name) :=
  ⟨by decide,
   join_exact_match_only [⟨"Beta", "US", [⟨0, 0, 1, 1⟩]⟩] [("A", (7 : ℚ))]
     ⟨⟨"Beta", "US", [⟨0, 0, 1, 1⟩]⟩, none⟩ (by decide)⟩

/-! ### C6 -/

/-- Counterexample to C6: with a config filtering on `FR` and a frame whose
only row belongs to `US`, the country filter matches zero Level-1 features;
`plot_choropleth_from_config` then logs an error and returns silently
(producing no render), and does **not** raise a `ConfigurationError`. -/
theorem empty_filter_silent_return_cex :
    plotChoroplethFromConfig ⟨["FR"], none, [], ⟨false, [], [], [], none⟩⟩
        ⟨[⟨"Alpha", "A", "US", some 1, [⟨0, 0, 1, 1⟩]⟩], true, true, true⟩ =
      Outcome.aborted LogLevel.error ∧
    plotChoroplethFromConfig ⟨["FR"], none, [], ⟨false, [], [], [], none⟩⟩
        ⟨[⟨"Alpha", "A", "US", some 1, [⟨0, 0, 1, 1⟩]⟩], true, true, true⟩ ≠
      Outcome.raisedConfigurationError := by
  constructor
  · decide
  · decide

/-- C6 amended: when the country filter matches zero Level-1 features (and
all earlier input checks pass), `plot_choropleth_from_config` aborts by
logging an error and returning without a render; no exception is raised. -/
theorem empty_filter_aborts_with_error_log (cfg : PlotConfig) (frame : L1Frame)
    (h1 : frame.rows ≠ []) (h2 : frame.hasValueCol = true)
    (h3 : frame.hasCodeCol = true) (h4 : frame.hasCountryCol = true)
    (h5 : cfg.countryCodes ≠ [])
    (h6 : frame.rows.filter
        (fun r : L1Row => decide (r.country ∈ cfg.countryCodes)) = []) :
    plotChoroplethFromConfig cfg frame = Outcome.aborted LogLevel.error := by
  simp [plotChoroplethFromConfig, List.isEmpty_iff, h1, h2, h3, h4, h5, h6]

/-- Witness for C6's amended claim at the counterexample input. -/
theorem empty_filter_aborts_with_error_log_witness :
    (([⟨"Alpha", "A", "US", some 1, [⟨0, 0, 1, 1⟩]⟩] : List L1Row) ≠ [] ∧
     (["FR"] : List String) ≠ [] ∧
     ([⟨"Alpha", "A", "US", some 1, [⟨0, 0, 1, 1⟩]⟩] : List L1Row).filter
        (fun r : L1Row => decide (r.country ∈ (["FR"] : List String))) = []) ∧
    plotChoroplethFromConfig ⟨["FR"], some ["A"], [], ⟨false, [], [], [], none⟩⟩
        ⟨[⟨"Alpha", "A", "US", some 1, [⟨0, 0, 1, 1⟩]⟩], true, true, true⟩ =
      Outcome.aborted LogLevel.error :=
  ⟨⟨by decide, by decide, by decide⟩,
   empty_filter_aborts_with_error_log
     ⟨["FR"], some ["A"], [], ⟨false, [], [], [], none⟩⟩
     ⟨[⟨"Alpha", "A", "US", some 1, [⟨0, 0, 1, 1⟩]⟩], true, true, true⟩
     (by decide) rfl rfl rfl (by decide) (by decide)⟩

/-! ### C7 -/

/-- Counterexample to C7: with the country-code column absent from the
geometry table, `plot_choropleth_from_config` logs an error and returns
without rendering — the filter is not skipped and rendering does not
proceed. -/
theorem missing_country_column_aborts_cex :
    plotChoroplethFromConfig ⟨["US"], none, [], ⟨false, [], [], [], none⟩⟩
        ⟨[⟨"Alpha", "A", "US", some 1, [⟨0, 0, 1, 1⟩]⟩], true, true, false⟩ =
      Outcome.aborted LogLevel.error ∧
    ∀ res : RenderResult,
      plotChoroplethFromConfig ⟨["US"], none, [], ⟨false, [], [], [], none⟩⟩
          ⟨[⟨"Alpha", "A", "US", some 1, [⟨0, 0, 1, 1⟩]⟩], true, true, false⟩ ≠
        Outcome.rendered res := by
  have h : plotChoroplethFromConfig ⟨["US"], none, [], ⟨false, [], [], [], none⟩⟩
      ⟨[⟨"Alpha", "A", "US", some 1, [⟨0, 0, 1, 1⟩]⟩], true, true, false⟩ =
      Outcome.aborted LogLevel.error := by decide
  refine ⟨h, ?_⟩
  intro res hres
  rw [h] at hres
  cases hres

/-- C7 amended: a supplied country filter with the country-code column
absent from the geometry table is fatal — `plot_choropleth_from_config`
logs an error and aborts the render instead of skipping the filter. -/
theorem missing_country_column_is_fatal (cfg : PlotConfig) (frame : L1Frame)
    (h1 : frame.rows ≠ []) (h2 : frame.hasValueCol = true)
    (h3 : frame.hasCodeCol = true) (h4 : frame.hasCountryCol = false) :
    plotChoroplethFromConfig cfg frame = Outcome.aborted LogLevel.error := by
  simp [plotChoroplethFromConfig, List.isEmpty_iff, h1, h2, h3, h4]

/-- Witness for C7's amended claim at the counterexample input. -/
theorem missing_country_column_is_fatal_witness :
    (([⟨"Alpha", "A", "US", some 1, [⟨0, 0, 1, 1⟩]⟩] : List L1Row) ≠ []) ∧
    plotChoroplethFromConfig ⟨["US"], some ["A"], [], ⟨false, [], [], [], none⟩⟩
        ⟨[⟨"Alpha", "A", "US", some 1, [⟨0, 0, 1, 1⟩]⟩], true, true, false⟩ =
      Outcome.aborted LogLevel.error :=
  ⟨by decide,
   missing_country_column_is_fatal
     ⟨["US"], some ["A"], [], ⟨false, [], [], [], none⟩⟩
     ⟨[⟨"Alpha", "A", "US", some 1, [⟨0, 0, 1, 1⟩]⟩], true, true, false⟩
     (by decide) rfl rfl rfl⟩

/-! ### C8 -/

/-- Counterexample to C8: region `A` is listed in the offsets map (with
offset `(1/2, 1/2)`) but not in `small_regions`, so its label is drawn as
direct text at the raw anchor `(1/2, 1/2)` of the unit square — not as an
offset annotation. -/
theorem offsets_without_small_regions_cex :
    labelFor ⟨true, [], [("A", 1/2, 1/2)], [], some "->"⟩ "A" [⟨0, 0, 1, 1⟩] =
      LabelDraw.direct ⟨1/2, 1/2⟩ ∧
    ∀ (xy xytext : Point) (ap : Option String),
      labelFor ⟨true, [], [("A", 1/2, 1/2)], [], some "->"⟩ "A" [⟨0, 0, 1, 1⟩] ≠
        LabelDraw.annotated xy xytext ap := by
  have h : labelFor ⟨true, [], [("A", 1/2, 1/2)], [], some "->"⟩ "A" [⟨0, 0, 1, 1⟩] =
      LabelDraw.direct ⟨1/2, 1/2⟩ := by
    norm_num [labelFor, labelAnchor, defaultAnchor, repPoint, Box.center, containsB,
      strictWithinB, List.lookup, Point.mk.injEq, List.any_cons, List.any_nil]
  refine ⟨h, ?_⟩
  intro xy xytext ap hann
  rw [h] at hann
  cases hann

/-- C8 amended: a region whose code is listed in **both** `small_regions`
and the offsets map has its label drawn as an annotation placed at
`anchor + configured_offset_vector`, connected back to the raw anchor
(`xy = anchor`) with the configured arrow properties. -/
theorem offset_label_annotated (lc : LabelCfg) (code : String) (g : Geometry)
    (dx dy : ℚ) (hsmall : code ∈ lc.smallRegions)
    (hoff : List.lookup code lc.offsets = some (dx, dy)) :
    labelFor lc code g =
      LabelDraw.annotated (labelAnchor lc code g)
        ⟨(labelAnchor lc code g).x + dx, (labelAnchor lc code g).y + dy⟩
        lc.arrowprops := by
  simp [labelFor, hsmall, hoff]

/-- Witness for C8's amended claim: region `A`, in both lists, gets an
annotation at anchor plus `(1, 2)`. -/
theorem offset_label_annotated_witness :
    ("A" ∈ (["A"] : List String) ∧
     List.lookup "A" [("A", (1 : ℚ), (2 : ℚ))] = some (1, 2)) ∧
    labelFor ⟨true, ["A"], [("A", 1, 2)], [], some "->"⟩ "A" [⟨0, 0, 2, 2⟩] =
      LabelDraw.annotated
        (labelAnchor ⟨true, ["A"], [("A", 1, 2)], [], some "->"⟩ "A" [⟨0, 0, 2, 2⟩])
        ⟨(labelAnchor ⟨true, ["A"], [("A", 1, 2)], [], some "->"⟩ "A" [⟨0, 0, 2, 2⟩]).x + 1,
         (labelAnchor ⟨true, ["A"], [("A", 1, 2)], [], some "->"⟩ "A" [⟨0, 0, 2, 2⟩]).y + 2⟩
        (⟨true, ["A"], [("A", 1, 2)], [], some "->"⟩ : LabelCfg).arrowprops :=
  ⟨⟨by decide, by decide⟩,
   offset_label_annotated ⟨true, ["A"], [("A", 1, 2)], [], some "->"⟩ "A"
     [⟨0, 0, 2, 2⟩] 1 2 (by decide) (by decide)⟩

/-! ### C9 -/

/-- C9: for every nonempty, well-formed geometry the default label placement
produces an anchor point totally (no exception): the representative point —
which always lies within the geometry — is used when the geometry strictly
contains it, and the centroid is used otherwise. -/
theorem default_anchor_fallback (g : Geometry) (hwf : ∀ b ∈ g, b.wf)
    (hne : g ≠ []) :
    memB g (repPoint g) = true ∧
    (containsB g (repPoint g) = true → defaultAnchor g = repPoint g) ∧
    (containsB g (repPoint g) = false → defaultAnchor g = centroidPt g) := by
  refine ⟨?_, ?_, ?_⟩
  · cases g with
    | nil => exact absurd rfl hne
    | cons b rest =>
      have hb := hwf b (List.mem_cons_self b rest)
      obtain ⟨hx, hy⟩ := hb
      simp only [repPoint, memB, List.any_cons, Bool.or_eq_true]
      left
      simp only [withinB, Box.center, Bool.and_eq_true, decide_eq_true_eq]
      exact ⟨⟨⟨by linarith, by linarith⟩, by linarith⟩, by linarith⟩
  · intro h
    simp [defaultAnchor, h]
  · intro h
    simp [defaultAnchor, h]

/-- Witness for C9 at a degenerate (zero-area) polygon: the representative
point is not strictly contained, so the placement falls back to the
centroid — still without any exception. -/
theorem default_anchor_fallback_witness :
    ((∀ b ∈ ([⟨0, 0, 0, 0⟩] : Geometry), b.wf) ∧
     ([⟨0, 0, 0, 0⟩] : Geometry) ≠ []) ∧
    (memB [⟨0, 0, 0, 0⟩] (repPoint [⟨0, 0, 0, 0⟩]) = true ∧
     (containsB [⟨0, 0, 0, 0⟩] (repPoint [⟨0, 0, 0, 0⟩]) = true →
       defaultAnchor [⟨0, 0, 0, 0⟩] = repPoint [⟨0, 0, 0, 0⟩]) ∧
     (containsB [⟨0, 0, 0, 0⟩] (repPoint [⟨0, 0, 0, 0⟩]) = false →
       defaultAnchor [⟨0, 0, 0, 0⟩] = centroidPt [⟨0, 0, 0, 0⟩])) :=
  ⟨⟨by decide, by decide⟩,
   default_anchor_fallback [⟨0, 0, 0, 0⟩] (by decide) (by decide)⟩

/-! ### C10 -/

/-- C10: calling `_get_clipped_representative_point` with a `clip_side`
outside `{top, bottom, left, right}` does not raise: it falls into the
warning branch and returns the representative point of the full, unclipped
geometry, for every geometry and fraction. -/
theorem invalid_clip_side_fallback (g : Geometry) (side : String) (f : ℚ)
    (h1 : side ≠ "top") (h2 : side ≠ "bottom") (h3 : side ≠ "left")
    (h4 : side ≠ "right") :
    getClippedRepresentativePoint g side f = repPoint g := by
  have hcr : clipRect (boundsG g) side f = none := by
    simp [clipRect, h1, h2, h3, h4]
  simp only [getClippedRepresentativePoint, hcr]

/-- Witness for C10 with the invalid side `"middle"`. -/
theorem invalid_clip_side_fallback_witness :
    (("middle" : String) ≠ "top" ∧ ("middle" : String) ≠ "bottom" ∧
     ("middle" : String) ≠ "left" ∧ ("middle" : String) ≠ "right") ∧
    getClippedRepresentativePoint [⟨0, 0, 2, 2⟩] "middle" 1 =
      repPoint [⟨0, 0, 2, 2⟩] :=
  ⟨⟨by decide, by decide, by decide, by decide⟩,
   invalid_clip_side_fallback [⟨0, 0, 2, 2⟩] "middle" 1
     (by decide) (by decide) (by decide) (by decide)⟩

end ClayPlotter
